import Mathlib

/-!
Verification of the hypnos idle-management daemon's core against its source.

The embedding follows the source files:
* `src/src/types.rs` — the `Request` event type, the `WaylandGlobals` shared
  registry and the notification-registry value tuple
  `(String, Option<String>, bool, ExtIdleNotificationV1)`;
* `src/src/wayland.rs` — the idle-notification event handler (pause check,
  battery gate, restore command) and the capability-advertised handler;
* `src/main.rs` — `IdleRule`, `load_json_config`, `apply_config`,
  `WaylandRunner::process_command`, `inhibit_sleep` and the bounded
  `mpsc::channel(32)` queue.

Protocol handles are modelled by the data the program attaches to them
(a subscription by the timeout it was created with); identities produced by
`Uuid::new_v4()` are modelled by a fresh counter, the standard model of a
fresh unique identity supply.
-/

namespace Hypnos

/-- Events on the router queue (src/src/types.rs, enum `Request`). -/
inductive Request where
  | ReloadConfig
  | RunCommand (cmd : String)
  | DbEvent (name : String)
  | OnBattery (b : Bool)
  | Flush
  | Inhibit
deriving DecidableEq, Repr

/-- Shared registry (src/src/types.rs, struct `WaylandGlobals`).  The bound
protocol handles `seat` and `notifier` are modelled by their presence. -/
structure WaylandGlobals where
  seat : Bool
  notifier : Bool
  on_battery : Option Bool
  restore_cmd : Option String
  is_paused : Bool
deriving DecidableEq, Repr

/-- A live idle subscription handle, modelled by the timeout (in ms) passed to
`get_idle_notification` when it was created. -/
structure Subscription where
  timeoutMs : Nat
deriving DecidableEq, Repr

/-- Value of a Notification Registry entry (src/src/types.rs,
`NotificationListHandle`): action command, optional restore command,
battery-gate flag, subscription handle. -/
structure RegEntry where
  command : String
  restore : Option String
  req_battery : Bool
  sub : Subscription
deriving DecidableEq, Repr

/-- The Notification Registry `HashMap<Uuid, ...>` as an association list keyed
by the (fresh-counter modelled) identity. -/
abbrev NotificationList := List (Nat × RegEntry)

/-- The two idle-notification protocol events the handler matches on
(`ext_idle_notification_v1::Event`). -/
inductive IdleEvent where
  | Idled
  | Resumed
deriving DecidableEq, Repr

/-- Idle-notification event handler
(src/src/wayland.rs, `Dispatch<ExtIdleNotificationV1, NotificationContext>::event`,
lines 139-185).  Returns the list of requests the handler attempts to enqueue
with `try_send` (zero or one).  Mirrors the source: the `is_paused` check comes
before the match on the event kind; the `Idled` arm looks the identity up,
skips when the entry's battery-gate flag is set and
`on_battery.unwrap_or(false)` is false, otherwise emits `RunCommand(command)`;
the `Resumed` arm emits `RunCommand(restore)` only when the entry exists and
its restore command is `Some`. -/
def notificationEvent (globals : WaylandGlobals) (notification_list : NotificationList)
    (uuid : Nat) (event : IdleEvent) : List Request :=
  if globals.is_paused then []
  else
    match event with
    | .Idled =>
      match notification_list.lookup uuid with
      | some entry =>
          if entry.req_battery && !(globals.on_battery.getD false) then []
          else [Request.RunCommand entry.command]
      | none => []
    | .Resumed =>
      match notification_list.lookup uuid with
      | some entry =>
          match entry.restore with
          | some restore_cmd => [Request.RunCommand restore_cmd]
          | none => []
      | none => []

/-- Capacity of the router queue (src/main.rs line 287, `mpsc::channel(32)`). -/
def queueCapacity : Nat := 32

/-- Bounded-queue `try_send`: appends when below capacity and reports success,
otherwise leaves the queue unchanged and reports failure (tokio
`Sender::try_send`). -/
def try_send (q : List Request) (r : Request) : List Request × Bool :=
  if q.length < queueCapacity then (q ++ [r], true) else (q, false)

/-- The handler's enqueue effect on the router queue: each attempted request is
passed to `try_send` and the result is discarded
(src/src/wayland.rs lines 169 and 177, `let _ = state.tx.try_send(...)`),
so a failed send leaves the queue as it was and execution continues. -/
def notificationEventQueue (globals : WaylandGlobals) (notification_list : NotificationList)
    (uuid : Nat) (event : IdleEvent) (q : List Request) : List Request :=
  (notificationEvent globals notification_list uuid event).foldl
    (fun acc r => (try_send acc r).1) q

/-- Router-visible state: the shared registry, the Notification Registry, a
count of `destroy()` calls on subscriptions, and the commands spawned so far. -/
structure RouterState where
  globals : WaylandGlobals
  notification_list : NotificationList
  destroyed : Nat
  spawned : List String
deriving DecidableEq, Repr

/-- One iteration of the Command Router
(src/main.rs, `WaylandRunner::process_command`, lines 209-249):
* `ReloadConfig` (lines 212-230) destroys every subscription in the registry
  and clears it; the config file is not read on this path;
* `RunCommand` spawns the command (recorded in `spawned`);
* `DbEvent` is only logged;
* `OnBattery` (lines 237-239) is only logged — no field of the shared registry
  is written;
* `Inhibit` delegates to `inhibit_sleep` (modelled separately below) and
  `Flush` flushes the connection; neither touches the state modelled here. -/
def process_command (s : RouterState) (event : Request) : RouterState :=
  match event with
  | .ReloadConfig =>
      { s with
          destroyed := s.destroyed + s.notification_list.length,
          notification_list := [] }
  | .RunCommand cmd => { s with spawned := s.spawned ++ [cmd] }
  | .DbEvent _ => s
  | .OnBattery _ => s
  | .Inhibit => s
  | .Flush => s

/-- A parsed configuration rule (src/main.rs, struct `IdleRule`, lines 59-63):
an i32 idle timeout in seconds and the action command string. -/
structure IdleRule where
  timeout : Int
  actions : String
deriving DecidableEq, Repr

/-- JSON values, as handed to the derived serde deserializer once
`serde_json` has lexed the file's text (the text-level lexer is an external
collaborator; `load_json_config` consumes its output). -/
inductive Json where
  | num (n : Int)
  | str (s : String)
  | bool (b : Bool)
  | null
  | arr (xs : List Json)
  | obj (fields : List (String × Json))

/-- Smallest signed 32-bit value, -2^31. -/
def i32Min : Int := -2147483648

/-- Largest signed 32-bit value, 2^31 - 1. -/
def i32Max : Int := 2147483647

/-- Field access in a JSON object by field name. -/
def getField : List (String × Json) → String → Option Json
  | [], _ => none
  | (k, v) :: rest, key => if k = key then some v else getField rest key

/-- Derived serde deserializer for `IdleRule`
(src/main.rs, `#[derive(Deserialize)] struct IdleRule`): requires an object
whose `timeout` field is an integer fitting in i32 and whose `actions` field is
a string; no further validation of the timeout value is performed. -/
def deserializeIdleRule : Json → Option IdleRule
  | .obj fields =>
      match getField fields "timeout", getField fields "actions" with
      | some (.num t), some (.str a) =>
          if i32Min ≤ t ∧ t ≤ i32Max then some ⟨t, a⟩ else none
      | _, _ => none
  | _ => none

/-- `load_json_config` (src/main.rs lines 76-80): deserializes the file's JSON
value as a `Vec<IdleRule>`; `none` models a read or parse error. -/
def load_json_config : Json → Option (List IdleRule)
  | .arr xs => xs.mapM deserializeIdleRule
  | _ => none

/-- The timeout conversion in `apply_config`
(src/main.rs line 113, `(rule.timeout * 1000).try_into().unwrap()`):
the i32 multiplication must stay in range (an overflow aborts), then the
product must be a valid u32, i.e. non-negative (`try_into::<u32>()` fails on a
negative value and `.unwrap()` panics).  `none` models the panic. -/
def timeoutToMs (timeout : Int) : Option Nat :=
  if i32Min ≤ timeout * 1000 ∧ timeout * 1000 ≤ i32Max then
    if 0 ≤ timeout * 1000 then some (timeout * 1000).toNat else none
  else none

/-- Notification Registry as built by `apply_config` (src/main.rs):
identity ↦ (action command, subscription handle). -/
abbrev ConfigRegistry := List (Nat × String × Subscription)

/-- State visible to `apply_config`: presence of the two required capabilities,
the registry it rebuilds, the fresh-identity counter modelling
`Uuid::new_v4()`, and a count of `destroy()` calls on subscriptions. -/
structure ConfigState where
  wl_seat : Bool
  idle_notifier : Bool
  registry : ConfigRegistry
  next_uuid : Nat
  destroyed : Nat
deriving DecidableEq, Repr

/-- The per-rule loop of `apply_config` (src/main.rs lines 106-120): for each
rule in input order, a fresh identity is generated, a subscription is created
with `rule.timeout * 1000` milliseconds (a failing conversion panics, modelled
by `none`), and the entry is inserted into the registry. -/
def applyRules : List IdleRule → ConfigState → Option ConfigState
  | [], st => some st
  | rule :: rest, st =>
      match timeoutToMs rule.timeout with
      | none => none
      | some ms =>
          applyRules rest
            { st with
                registry := st.registry ++ [(st.next_uuid, rule.actions, ⟨ms⟩)],
                next_uuid := st.next_uuid + 1 }

/-- The registry fragment the per-rule loop appends for a rule list when every
conversion succeeds: consecutive fresh identities starting at `n`, each rule's
action, and a subscription of `rule.timeout * 1000` milliseconds. -/
def freshEntries (n : Nat) : List IdleRule → ConfigRegistry
  | [] => []
  | r :: rs => (n, r.actions, ⟨(r.timeout * 1000).toNat⟩) :: freshEntries (n + 1) rs

/-- `apply_config` (src/main.rs lines 82-123).  `parsed` is the outcome of
`load_json_config`: on a read/parse error the function logs and returns
`Ok(())` without touching any state; if the idle notifier or the seat is
missing it returns `Ok(())` without touching any state; otherwise it destroys
every existing subscription, clears the registry and runs the per-rule loop.
The outer `none` models a panic inside the loop. -/
def apply_config (parsed : Option (List IdleRule)) (st : ConfigState) :
    Option ConfigState :=
  match parsed with
  | none => some st
  | some rules =>
      if !st.idle_notifier || !st.wl_seat then some st
      else
        applyRules rules
          { st with
              destroyed := st.destroyed + st.registry.length,
              registry := [] }

/-- The capability interfaces the registry handler reacts to for
reconciliation (src/src/wayland.rs lines 48-77); every other advertised
interface is bound without triggering a reconcile. -/
inductive Capability where
  | seat
  | notifier
  | other
deriving DecidableEq, Repr

/-- Registry `Global` event handler
(src/src/wayland.rs, `Dispatch<WlRegistry, ()>::event`, lines 34-108):
on `wl_seat` it stores the seat and, if the idle notifier is already present,
invokes `apply_config`; on `ext_idle_notifier_v1` it stores the notifier and,
if the seat is already present, invokes `apply_config`.  The returned flag
records whether `apply_config` was invoked. -/
def registry_global (st : ConfigState) (parsed : Option (List IdleRule))
    (c : Capability) : Option ConfigState × Bool :=
  match c with
  | .seat =>
      let st := { st with wl_seat := true }
      if st.idle_notifier then (apply_config parsed st, true) else (some st, false)
  | .notifier =>
      let st := { st with idle_notifier := true }
      if st.wl_seat then (apply_config parsed st, true) else (some st, false)
  | .other => (some st, false)

/-- Program counter of one spawned `inhibit_sleep` task
(src/main.rs lines 251-277), split at the shared-memory accesses:
0 — `IS_INHIBITED.load`, returning when the flag is set;
1 — `IS_INHIBITED.store(true)`;
2 — create the inhibitor when the manager and the surface are present;
3 — the sleep timer elapses;
4 — destroy the inhibitor when one was created;
5 — `IS_INHIBITED.store(false)`;
6 — done.  `held` records whether this task created an inhibitor. -/
structure InhibitTask where
  pc : Nat
  held : Bool
deriving DecidableEq, Repr

/-- State shared between concurrent `inhibit_sleep` tasks: the atomic
`IS_INHIBITED` flag (src/main.rs line 48), presence of the inhibit manager and
surface, and counts of inhibitor create and destroy calls. -/
structure InhibitShared where
  is_inhibited : Bool
  manager_and_surface : Bool
  creates : Nat
  destroys : Nat
deriving DecidableEq, Repr

/-- One atomic step of an `inhibit_sleep` task.  Each load or store of
`IS_INHIBITED` is its own step: the source checks the flag with `load` and
then sets it with a separate `store`, not with one read-modify-write. -/
def inhibitStep (sh : InhibitShared) (t : InhibitTask) :
    InhibitShared × InhibitTask :=
  match t.pc with
  | 0 => if sh.is_inhibited then (sh, { t with pc := 6 }) else (sh, { t with pc := 1 })
  | 1 => ({ sh with is_inhibited := true }, { t with pc := 2 })
  | 2 =>
      if sh.manager_and_surface then
        ({ sh with creates := sh.creates + 1 }, { t with held := true, pc := 3 })
      else (sh, { t with pc := 3 })
  | 3 => (sh, { t with pc := 4 })
  | 4 =>
      if t.held then ({ sh with destroys := sh.destroys + 1 }, { t with pc := 5 })
      else (sh, { t with pc := 5 })
  | 5 => ({ sh with is_inhibited := false }, { t with pc := 6 })
  | _ => (sh, t)

/-- Two concurrent `inhibit_sleep` invocations and the shared state. -/
structure InhibitRun where
  shared : InhibitShared
  task0 : InhibitTask
  task1 : InhibitTask
deriving DecidableEq, Repr

/-- Runs a schedule over the two tasks: `false` steps task 0, `true` steps
task 1.  A schedule is one possible interleaving of the two tokio tasks'
atomic steps. -/
def runSchedule : List Bool → InhibitRun → InhibitRun
  | [], s => s
  | b :: rest, s =>
      if b then
        let (sh, t) := inhibitStep s.shared s.task1
        runSchedule rest ⟨sh, s.task0, t⟩
      else
        let (sh, t) := inhibitStep s.shared s.task0
        runSchedule rest ⟨sh, t, s.task1⟩

/-! Helper lemmas -/

/-- A successful run of the per-rule loop appends exactly the fresh entries of
the rule list to the registry. -/
theorem applyRules_some_registry (rules : List IdleRule) :
    ∀ st st' : ConfigState, applyRules rules st = some st' →
      st'.registry = st.registry ++ freshEntries st.next_uuid rules := by
  induction rules with
  | nil =>
    intro st st' h
    simp [applyRules] at h
    subst h
    simp [freshEntries]
  | cons r rs ih =>
    intro st st' h
    unfold applyRules at h
    cases hms : timeoutToMs r.timeout with
    | none => rw [hms] at h; cases h
    | some ms =>
      rw [hms] at h
      have hval : ms = (r.timeout * 1000).toNat := by
        unfold timeoutToMs at hms
        split at hms
        · split at hms
          · exact (Option.some.inj hms).symm
          · cases hms
        · cases hms
      subst hval
      have hreg := ih _ _ h
      simp only [freshEntries]
      rw [hreg]
      simp [List.append_assoc]

/-- Every identity in the fresh-entry fragment starting at `n` is at least `n`. -/
theorem freshEntries_fst_ge (rules : List IdleRule) :
    ∀ n : Nat, ∀ p ∈ freshEntries n rules, n ≤ p.1 := by
  induction rules with
  | nil => intro n p hp; simp [freshEntries] at hp
  | cons r rs ih =>
    intro n p hp
    simp only [freshEntries, List.mem_cons] at hp
    rcases hp with h | h
    · subst h; simp
    · exact Nat.le_of_succ_le (ih (n + 1) p h)

/-- The identities of the fresh-entry fragment are pairwise distinct. -/
theorem freshEntries_fst_nodup (rules : List IdleRule) :
    ∀ n : Nat, ((freshEntries n rules).map (·.1)).Nodup := by
  induction rules with
  | nil => intro n; simp [freshEntries]
  | cons r rs ih =>
    intro n
    simp only [freshEntries, List.map_cons]
    refine List.nodup_cons.mpr ⟨?_, ih (n + 1)⟩
    intro hmem
    rcases List.mem_map.mp hmem with ⟨p, hp, hpn⟩
    have hge := freshEntries_fst_ge rs (n + 1) p hp
    omega

/-- The action/timeout contents of the fresh-entry fragment are the rules'
actions and millisecond timeouts, in input order. -/
theorem freshEntries_map_val (rules : List IdleRule) :
    ∀ n : Nat, (freshEntries n rules).map (fun e => (e.2.1, e.2.2.timeoutMs))
      = rules.map (fun r => (r.actions, (r.timeout * 1000).toNat)) := by
  induction rules with
  | nil => intro n; simp [freshEntries]
  | cons r rs ih => intro n; simp [freshEntries, ih (n + 1)]

/-- The fresh-entry fragment has one entry per rule. -/
theorem freshEntries_length (rules : List IdleRule) :
    ∀ n : Nat, (freshEntries n rules).length = rules.length := by
  induction rules with
  | nil => intro n; rfl
  | cons r rs ih => intro n; simp [freshEntries, ih (n + 1)]

/-- If some rule's timeout conversion fails, the per-rule loop panics. -/
theorem applyRules_none_of_mem (rules : List IdleRule) (r : IdleRule)
    (hov : timeoutToMs r.timeout = none) :
    ∀ st : ConfigState, r ∈ rules → applyRules rules st = none := by
  induction rules with
  | nil => intro st h; cases h
  | cons a rs ih =>
    intro st h
    rcases List.mem_cons.mp h with h | h
    · subst h
      simp [applyRules, hov]
    · cases hta : timeoutToMs a.timeout with
      | none => simp [applyRules, hta]
      | some ms =>
        simp only [applyRules, hta]
        exact ih _ h

/-! Claim theorems -/

/-- C10: when the shared pause flag is set, the idle-notification event
handler returns without enqueuing any command, for every subscription identity
and for both event kinds — the pause check precedes the event-kind dispatch,
so a defined restore command is also suppressed while paused. -/
theorem paused_suppresses_all_events (globals : WaylandGlobals)
    (notification_list : NotificationList) (uuid : Nat) (event : IdleEvent)
    (hp : globals.is_paused = true) :
    notificationEvent globals notification_list uuid event = [] := by
  unfold notificationEvent
  rw [hp]
  simp

/-- Witness for C10: a paused state suppresses even a Resumed event whose
entry has a restore command defined. -/
theorem paused_suppresses_all_events_witness :
    notificationEvent ⟨true, true, some true, none, true⟩
      [(3, ⟨"lock", some "unlock", false, ⟨5000⟩⟩)] 3 .Resumed = [] :=
  paused_suppresses_all_events _ _ _ _ rfl

/-- C2: evaluation of the Command Router at an OnBattery event.  The arm
(src/main.rs lines 237-239) only logs: the whole router state, in particular
the shared registry's power-state flag, is unchanged, whereas the claim
requires the flag to become Some(b) after the event is handled. -/
theorem on_battery_event_leaves_state_unchanged (s : RouterState) (b : Bool) :
    process_command s (.OnBattery b) = s ∧
    (process_command s (.OnBattery b)).globals.on_battery = s.globals.on_battery :=
  ⟨rfl, rfl⟩

/-- C1: the spec's example scenario evaluated on the code.  With a
battery-gated rule and power state unknown, an idle event produces no
RunCommand (first conjunct, as the claim states); but because the router's
OnBattery arm never writes the shared flag (second conjunct), an idle event
after OnBattery(true) has been processed still produces no RunCommand (third
conjunct), where the claim requires exactly one.  The last conjunct shows the
handler's gate itself does fire when the flag is Some(true), isolating the
defect to the router. -/
theorem battery_gate_scenario_dead :
    notificationEvent (⟨true, true, none, none, false⟩ : WaylandGlobals)
      [(7, ⟨"lock", none, true, ⟨5000⟩⟩)] 7 .Idled = [] ∧
    (process_command ⟨⟨true, true, none, none, false⟩,
        [(7, ⟨"lock", none, true, ⟨5000⟩⟩)], 0, []⟩
        (.OnBattery true)).globals.on_battery = none ∧
    notificationEvent
      (process_command ⟨⟨true, true, none, none, false⟩,
          [(7, ⟨"lock", none, true, ⟨5000⟩⟩)], 0, []⟩
          (.OnBattery true)).globals
      (process_command ⟨⟨true, true, none, none, false⟩,
          [(7, ⟨"lock", none, true, ⟨5000⟩⟩)], 0, []⟩
          (.OnBattery true)).notification_list 7 .Idled = [] ∧
    notificationEvent (⟨true, true, some true, none, false⟩ : WaylandGlobals)
      [(7, ⟨"lock", none, true, ⟨5000⟩⟩)] 7 .Idled = [Request.RunCommand "lock"] :=
  ⟨rfl, rfl, rfl, rfl⟩

/-- C4: evaluation of the ReloadConfig arm (src/main.rs lines 212-230).  The
router destroys every subscription and clears the Notification Registry
without reading the config file at all, so after a reload attempt with an
unreadable file a 1-entry registry becomes empty, whereas the claim says the
entry count and commands are unchanged.  (The process indeed does not abort:
the arm is a total transition.) -/
theorem reload_clears_registry_unconditionally :
    (process_command ⟨⟨true, true, none, none, false⟩,
        [(3, ⟨"lock", some "unlock", false, ⟨60000⟩⟩)], 0, []⟩
        .ReloadConfig).notification_list = [] ∧
    (process_command ⟨⟨true, true, none, none, false⟩,
        [(3, ⟨"lock", some "unlock", false, ⟨60000⟩⟩)], 0, []⟩
        .ReloadConfig).destroyed = 1 :=
  ⟨rfl, rfl⟩

/-- C3: after a reconcile that applied rule list R (both capabilities present
and the call returned without panicking), the Notification Registry has
exactly len(R) entries, the identities are pairwise distinct, and in input
order each entry holds the corresponding rule's action and a subscription
created with rule.timeout * 1000 milliseconds. -/
theorem reconcile_registry_shape (rules : List IdleRule) (st st' : ConfigState)
    (hseat : st.wl_seat = true) (hnot : st.idle_notifier = true)
    (happ : apply_config (some rules) st = some st') :
    st'.registry.length = rules.length ∧
    (st'.registry.map (·.1)).Nodup ∧
    st'.registry.map (fun e => (e.2.1, e.2.2.timeoutMs))
      = rules.map (fun r => (r.actions, (r.timeout * 1000).toNat)) := by
  simp only [apply_config, hseat, hnot, Bool.not_true, Bool.or_self,
    Bool.false_eq_true, if_false] at happ
  have hreg := applyRules_some_registry rules _ _ happ
  simp only [List.nil_append] at hreg
  refine ⟨?_, ?_, ?_⟩
  · rw [hreg]; exact freshEntries_length rules _
  · rw [hreg]; exact freshEntries_fst_nodup rules _
  · rw [hreg]; exact freshEntries_map_val rules _

/-- Witness for C3: reconciling two rules over a ready state with one prior
entry yields a two-entry registry with distinct fresh identities, the rules'
actions and their second-to-millisecond timeouts in input order. -/
theorem reconcile_registry_shape_witness :
    ((⟨true, true, [(3, "lock", ⟨5000⟩), (4, "off", ⟨10000⟩)], 5, 1⟩ :
        ConfigState).registry.length
      = ([⟨5, "lock"⟩, ⟨10, "off"⟩] : List IdleRule).length) ∧
    ((⟨true, true, [(3, "lock", ⟨5000⟩), (4, "off", ⟨10000⟩)], 5, 1⟩ :
        ConfigState).registry.map (·.1)).Nodup ∧
    (⟨true, true, [(3, "lock", ⟨5000⟩), (4, "off", ⟨10000⟩)], 5, 1⟩ :
        ConfigState).registry.map (fun e => (e.2.1, e.2.2.timeoutMs))
      = ([⟨5, "lock"⟩, ⟨10, "off"⟩] : List IdleRule).map
          (fun r => (r.actions, (r.timeout * 1000).toNat)) :=
  reconcile_registry_shape [⟨5, "lock"⟩, ⟨10, "off"⟩]
    ⟨true, true, [(0, "old", ⟨1000⟩)], 3, 0⟩ _ rfl rfl (by decide)

/-- C5: with both capabilities absent, a reconcile attempt (under any parse
outcome) is an immediate no-op success, as it also is after only one
capability arrived; the first arrival of seat or notifier does not invoke the
reconciler, and whichever capability completes the pair invokes apply_config
on the now-complete state with the most recently loaded rule set, in either
arrival order. -/
theorem capability_pair_triggers_reconcile (parsed : Option (List IdleRule))
    (st : ConfigState) (hs : st.wl_seat = false) (hn : st.idle_notifier = false) :
    apply_config parsed st = some st ∧
    apply_config parsed { st with wl_seat := true }
      = some { st with wl_seat := true } ∧
    apply_config parsed { st with idle_notifier := true }
      = some { st with idle_notifier := true } ∧
    registry_global st parsed .seat = (some { st with wl_seat := true }, false) ∧
    registry_global st parsed .notifier
      = (some { st with idle_notifier := true }, false) ∧
    registry_global { st with wl_seat := true } parsed .notifier
      = (apply_config parsed { st with wl_seat := true, idle_notifier := true },
         true) ∧
    registry_global { st with idle_notifier := true } parsed .seat
      = (apply_config parsed { st with wl_seat := true, idle_notifier := true },
         true) := by
  refine ⟨?_, ?_, ?_, ?_, ?_, ?_, ?_⟩ <;>
    cases parsed <;> simp [apply_config, registry_global, hs, hn]

/-- Witness for C5: the empty-capability initial state with a one-rule parsed
config behaves as stated in both arrival orders. -/
theorem capability_pair_triggers_reconcile_witness :
    apply_config (some [⟨1, "x"⟩]) ⟨false, false, [], 0, 0⟩
      = some ⟨false, false, [], 0, 0⟩ ∧
    apply_config (some [⟨1, "x"⟩]) ⟨true, false, [], 0, 0⟩
      = some ⟨true, false, [], 0, 0⟩ ∧
    apply_config (some [⟨1, "x"⟩]) ⟨false, true, [], 0, 0⟩
      = some ⟨false, true, [], 0, 0⟩ ∧
    registry_global ⟨false, false, [], 0, 0⟩ (some [⟨1, "x"⟩]) .seat
      = (some ⟨true, false, [], 0, 0⟩, false) ∧
    registry_global ⟨false, false, [], 0, 0⟩ (some [⟨1, "x"⟩]) .notifier
      = (some ⟨false, true, [], 0, 0⟩, false) ∧
    registry_global ⟨true, false, [], 0, 0⟩ (some [⟨1, "x"⟩]) .notifier
      = (apply_config (some [⟨1, "x"⟩]) ⟨true, true, [], 0, 0⟩, true) ∧
    registry_global ⟨false, true, [], 0, 0⟩ (some [⟨1, "x"⟩]) .seat
      = (apply_config (some [⟨1, "x"⟩]) ⟨true, true, [], 0, 0⟩, true) :=
  capability_pair_triggers_reconcile (some [⟨1, "x"⟩]) ⟨false, false, [], 0, 0⟩
    rfl rfl

/-- C6 counterexample: a rule whose timeout in milliseconds (-1000) is not
representable in the protocol's u32 range makes apply_config panic at the
`try_into().unwrap()` (modelled by `none`): the rule is not skipped, the
following rule ⟨1, "b"⟩ is never processed and no registry results, against
the claim's skip-with-warning-and-continue behavior. -/
theorem overflow_panics_not_skips :
    apply_config (some [⟨-1, "a"⟩, ⟨1, "b"⟩]) ⟨true, true, [], 0, 0⟩ = none := by
  decide

/-- C6 amended: if any rule's timeout fails the millisecond conversion, the
whole apply_config call panics (returns none): the offending rule is not
skipped with a warning and reconciliation of the other rules does not
continue — the reconcile aborts at that rule.  The panic unwinds only the
detached dispatch-loop task (its JoinHandle is dropped at src/main.rs:300),
so the process itself survives. -/
theorem overflow_aborts_reconcile (rules : List IdleRule) (st : ConfigState)
    (r : IdleRule) (hr : r ∈ rules) (hov : timeoutToMs r.timeout = none)
    (hseat : st.wl_seat = true) (hnot : st.idle_notifier = true) :
    apply_config (some rules) st = none := by
  simp only [apply_config, hseat, hnot, Bool.not_true, Bool.or_self,
    Bool.false_eq_true, if_false]
  exact applyRules_none_of_mem rules r hov _ hr

/-- Witness for C6 amended: a list with a valid first rule and a negative
second timeout makes the whole reconcile panic. -/
theorem overflow_aborts_reconcile_witness :
    apply_config (some [⟨2, "ok"⟩, ⟨-5, "bad"⟩]) ⟨true, true, [], 0, 0⟩ = none :=
  overflow_aborts_reconcile [⟨2, "ok"⟩, ⟨-5, "bad"⟩] ⟨true, true, [], 0, 0⟩
    ⟨-5, "bad"⟩ (by decide) (by decide) rfl rfl

/-- C7 counterexample: config parsing accepts a rule with timeout 0 — no
rejection of zero or negative timeouts happens at parse time
(load_json_config deserializes the rule list with no range validation). -/
theorem parse_accepts_nonpositive_timeout :
    load_json_config (.arr [.obj [("timeout", .num 0), ("actions", .str "x")]])
      = some [⟨0, "x"⟩] := by
  decide

/-- C7 amended: parsing applies no range validation to the timeout — any
i32 value, including 0 and negatives, deserializes successfully — and for a
timeout t with |t| ≤ 2147483 (so the i32 multiplication cannot overflow) the
reconcile-time conversion succeeds with t * 1000 milliseconds exactly when
0 ≤ t and panics when t < 0. -/
theorem parse_no_timeout_validation (t : Int) (a : String)
    (ht : -2147483 ≤ t ∧ t ≤ 2147483) :
    load_json_config (.arr [.obj [("timeout", .num t), ("actions", .str a)]])
      = some [⟨t, a⟩] ∧
    timeoutToMs t = (if 0 ≤ t then some (t * 1000).toNat else none) := by
  constructor
  · have hrange : i32Min ≤ t ∧ t ≤ i32Max := by
      unfold i32Min i32Max
      omega
    simp [load_json_config, List.mapM, List.mapM.loop, deserializeIdleRule,
      getField, hrange]
  · unfold timeoutToMs i32Min i32Max
    rw [if_pos (by omega)]
    by_cases hp : 0 ≤ t
    · rw [if_pos (by omega), if_pos hp]
    · rw [if_neg (by omega), if_neg hp]

/-- Witness for C7 amended: a negative timeout parses fine and its
conversion panics. -/
theorem parse_no_timeout_validation_witness :
    load_json_config
        (.arr [.obj [("timeout", .num (-7)), ("actions", .str "suspend")]])
      = some [⟨-7, "suspend"⟩] ∧
    timeoutToMs (-7) = (if 0 ≤ (-7 : Int) then some ((-7) * 1000).toNat else none) :=
  parse_no_timeout_validation (-7) "suspend" (by decide)

/-- C8: a schedule in which both inhibit_sleep tasks pass the IS_INHIBITED
load before either performs its store — possible because the source checks
the flag with a separate load and store rather than one atomic
read-modify-write — creates two inhibitor objects and performs two destroys,
where the claim says at most one creation and exactly one destroy, two
overlapping creations being impossible. -/
theorem overlapping_inhibit_creates_two :
    (runSchedule [false, true, false, true, false, true, false, true,
        false, true, false, true]
      ⟨⟨false, true, 0, 0⟩, ⟨0, false⟩, ⟨0, false⟩⟩).shared.creates = 2 ∧
    (runSchedule [false, true, false, true, false, true, false, true,
        false, true, false, true]
      ⟨⟨false, true, 0, 0⟩, ⟨0, false⟩, ⟨0, false⟩⟩).shared.destroys = 2 := by
  exact ⟨rfl, rfl⟩

/-- C9 counterexample: with the battery gate open the Idled handler attempts
exactly one RunCommand; try_send on the full 32-element queue fails; the
failure value is discarded (`let _ =`) and the queue is left unchanged — the
event is silently dropped and nothing fatal is surfaced. -/
theorem full_queue_drop_at_capacity :
    notificationEvent (⟨true, true, some true, none, false⟩ : WaylandGlobals)
      [(8, ⟨"dpms off", none, true, ⟨30000⟩⟩)] 8 .Idled
      = [Request.RunCommand "dpms off"] ∧
    try_send (List.replicate 32 Request.Flush) (Request.RunCommand "dpms off")
      = (List.replicate 32 Request.Flush, false) ∧
    notificationEventQueue (⟨true, true, some true, none, false⟩ : WaylandGlobals)
      [(8, ⟨"dpms off", none, true, ⟨30000⟩⟩)] 8 .Idled
      (List.replicate 32 Request.Flush)
      = List.replicate 32 Request.Flush := by
  refine ⟨rfl, by decide, by decide⟩

/-- C9 amended: when the queue is at or above capacity, every request the
idle-notification handler attempts to enqueue is dropped and the queue is
returned unchanged: the try_send failure is discarded, not surfaced as a
fatal condition (and the filewatcher producer uses blocking_send, which
waits for space rather than failing). -/
theorem full_queue_drops_silently (globals : WaylandGlobals)
    (notification_list : NotificationList) (uuid : Nat) (event : IdleEvent)
    (q : List Request) (hq : queueCapacity ≤ q.length) :
    notificationEventQueue globals notification_list uuid event q = q := by
  unfold notificationEventQueue
  have hfold : ∀ rs : List Request,
      rs.foldl (fun acc r => (try_send acc r).1) q = q := by
    intro rs
    induction rs with
    | nil => rfl
    | cons r rest ih =>
      have hts : try_send q r = (q, false) := by
        unfold try_send
        rw [if_neg (Nat.not_lt.mpr hq)]
      simp only [List.foldl_cons, hts]
      exact ih
  exact hfold _

/-- Witness for C9 amended: an over-capacity queue is returned unchanged by
the handler's enqueue path. -/
theorem full_queue_drops_silently_witness :
    notificationEventQueue (⟨false, false, none, none, false⟩ : WaylandGlobals)
      [(9, ⟨"dim", none, false, ⟨1000⟩⟩)] 9 .Idled
      (List.replicate 33 Request.Flush)
      = List.replicate 33 Request.Flush :=
  full_queue_drops_silently _ _ _ _ _ (by decide)

end Hypnos
